import Mathlib

/-!
# Verification of the Yakou8 mini-game simulation loops

Shallow embedding of the two game-state update functions of the repository:

* the space-shooter update `updateSpaceShooter` from
  `src/components/Terminal.tsx` (grid of `GAME_WIDTH × GAME_HEIGHT` cells,
  player on the bottom row, bullets moving up, meteorites and loot moving
  down), and
* the runner game loop from `src/components/RunnerGame.tsx`
  (axis-aligned rectangles on an 800×200 canvas, obstacles scrolling left,
  collision gated by obstacle kind and the jump/duck state).

JavaScript numbers are embedded as `ℤ` (grid coordinates, scores) and `ℚ`
(canvas coordinates and speeds; the only non-integral constant is the 0.5
speed step).  The calls to `Math.random()` are abstracted into an explicit
oracle (`Env` for the shooter, an obstacle-kind oracle for the runner):
each draw that the source makes becomes one oracle field, with the range
the source expression guarantees (`Math.floor(Math.random()*GAME_WIDTH)`
always lies in `[0, GAME_WIDTH)`, hence `Fin 20`).
-/

namespace Yakou8

/-! ## Space shooter: data model (`Terminal.tsx`) -/

/-- `const GAME_WIDTH = 20`. -/
def GAME_WIDTH : ℤ := 20

/-- `const GAME_HEIGHT = 15`. -/
def GAME_HEIGHT : ℤ := 15

/-- A grid position `{ x, y }` as used for meteorites, bullets and loot. -/
structure Pos where
  x : ℤ
  y : ℤ
deriving DecidableEq, Repr

/-- The `SpaceShooterState` interface of `Terminal.tsx`. -/
structure SpaceShooterState where
  playerPos : ℤ
  meteorites : List Pos
  bullets : List Pos
  loot : List Pos
  score : ℤ
  gameOver : Bool
deriving DecidableEq, Repr

/-- Oracle for the `Math.random()` draws made during one tick:
`spawnMeteor` is the outcome of `Math.random() < 0.05`, `spawnX` the value
of `Math.floor(Math.random() * GAME_WIDTH)` (always in `[0, 20)`), and
`lootDrop k` the outcome of the `k`-th `Math.random() < 0.3` test in the
bullet–meteorite collision loop. -/
structure Env where
  spawnMeteor : Bool
  spawnX : Fin 20
  lootDrop : ℕ → Bool

/-- `initializeSpaceShooter`: player centred, all lists empty. -/
def initializeSpaceShooter : SpaceShooterState :=
  { playerPos := 10, meteorites := [], bullets := [], loot := [],
    score := 0, gameOver := false }

/-! ## Space shooter: the update function

`updateSpaceShooter` is decomposed into one Lean definition per loop /
array-pipeline of the source; `fullTick` chains them in source order. -/

/-- Bullet phase: `bullets.map(y-1).filter(y >= 0)`. -/
def moveBullets (bs : List Pos) : List Pos :=
  (bs.map fun b => { b with y := b.y - 1 }).filter fun b => decide (0 ≤ b.y)

/-- Downward motion shared by meteorites and loot: `map(y+1)`. -/
def moveDown (ps : List Pos) : List Pos :=
  ps.map fun q => { q with y := q.y + 1 }

/-- Meteorite spawning: `if (Math.random() < 0.05) push({x: rand, y: 0})`. -/
def spawnMeteorites (env : Env) (ms : List Pos) : List Pos :=
  if env.spawnMeteor then ms ++ [⟨((env.spawnX : ℕ) : ℤ), 0⟩] else ms

/-- The inner collision loop `for (j = meteorites.length - 1; j >= 0; j--)`:
remove the meteorite with the highest index equal to `p`, if any. -/
def removeLastAt (p : Pos) : List Pos → Option (List Pos)
  | [] => none
  | m :: rest =>
    match removeLastAt p rest with
    | some rest' => some (m :: rest')
    | none => if m = p then some rest else none

/-- Result of the bullet–meteorite collision loop: the surviving bullets and
meteorites, the updated score, the loot pushed during the loop (in push
order), and how many loot-drop draws were consumed. -/
structure CollideResult where
  bullets : List Pos
  meteorites : List Pos
  score : ℤ
  newLoot : List Pos
  rand : ℕ
deriving DecidableEq, Repr

/-- The outer collision loop, processing bullets from the highest index
down (the argument list is the bullet list reversed, so its head is the
bullet the source examines first); survivors are returned in processing
order.  A bullet that finds a meteorite at its own cell removes it,
adds 10 to the score and, when the loot oracle fires, pushes a loot item
at the destroyed meteorite's cell (which equals the bullet's cell). -/
def collideAux (drop : ℕ → Bool) :
    List Pos → List Pos → ℤ → List Pos → ℕ → CollideResult
  | [], ms, sc, nl, k => ⟨[], ms, sc, nl, k⟩
  | b :: rest, ms, sc, nl, k =>
    match removeLastAt b ms with
    | none =>
      let r := collideAux drop rest ms sc nl k
      { r with bullets := b :: r.bullets }
    | some ms' =>
      collideAux drop rest ms' (sc + 10) (if drop k then nl ++ [b] else nl)
        (k + 1)

/-- The whole collision section: iterate backwards over the bullets,
restoring the original relative order of the surviving bullets. -/
def collide (drop : ℕ → Bool) (bs ms : List Pos) (sc : ℤ) : CollideResult :=
  let r := collideAux drop bs.reverse ms sc [] 0
  { r with bullets := r.bullets.reverse }

/-- The loot-collection loop: every item at the player's cell
(`y === GAME_HEIGHT - 1 && x === playerPos`) is removed and adds 50 to the
score; returns the kept items and the total score bonus. -/
def collectLoot (p : ℤ) : List Pos → List Pos × ℤ
  | [] => ([], 0)
  | item :: rest =>
    let r := collectLoot p rest
    if item.y = GAME_HEIGHT - 1 ∧ item.x = p then (r.1, r.2 + 50)
    else (item :: r.1, r.2)

/-- The non-movement part of one tick, in source order: fire push, bullet
motion, meteorite motion, meteorite spawn, bullet–meteorite collisions,
loot motion, loot collection, game-over check, off-screen cleanup. -/
def fullTick (s : SpaceShooterState) (action : String) (env : Env) :
    SpaceShooterState :=
  let bullets0 :=
    if action = " " then s.bullets ++ [⟨s.playerPos, GAME_HEIGHT - 2⟩]
    else s.bullets
  let bullets1 := moveBullets bullets0
  let ms2 := spawnMeteorites env (moveDown s.meteorites)
  let c := collide env.lootDrop bullets1 ms2 s.score
  let col := collectLoot s.playerPos (moveDown (s.loot ++ c.newLoot))
  { playerPos := s.playerPos
    meteorites := c.meteorites.filter fun m => decide (m.y < GAME_HEIGHT)
    bullets := c.bullets
    loot := col.1.filter fun it => decide (it.y < GAME_HEIGHT)
    score := c.score + col.2
    gameOver := c.meteorites.any fun m =>
      decide (GAME_HEIGHT - 1 ≤ m.y) && decide (m.x = s.playerPos) }

/-- `updateSpaceShooter(state, action)` of `Terminal.tsx`.  The action is
the string the key handlers pass: `"a"` / `"d"` for movement, `" "` for
fire, `""` for the periodic driver's empty tick. -/
def updateSpaceShooter (s : SpaceShooterState) (action : String) (env : Env) :
    SpaceShooterState :=
  if s.gameOver then s
  else if action = "a" ∧ s.playerPos > 0 then
    { s with playerPos := s.playerPos - 1 }
  else if action = "d" ∧ s.playerPos < GAME_WIDTH - 1 then
    { s with playerPos := s.playerPos + 1 }
  else fullTick s action env

/-! ## Runner game (`RunnerGame.tsx`)

Canvas is `800 × 200`.  Rendering-only state (background layers, the speed
notification, drawing) is omitted: it never feeds back into the simulated
quantities.  One history variable, `spawnCount`, counts the calls to
`spawnObstacle`; it influences nothing and only records when spawns
happen. -/

/-- An axis-aligned rectangle, the `GameObject` interface's geometric part. -/
structure GameObject where
  x : ℚ
  y : ℚ
  width : ℚ
  height : ℚ
deriving DecidableEq, Repr

/-- The obstacle kind `'high' | 'low'`. -/
inductive OType where
  | high
  | low
deriving DecidableEq, Repr

/-- An obstacle: a rectangle plus its stored speed, kind and `passed` flag. -/
structure Obstacle extends GameObject where
  speed : ℚ
  type : OType
  passed : Bool
deriving DecidableEq, Repr

/-- `checkCollision(rect1, rect2)`: axis-aligned bounding-box overlap. -/
def checkCollision (rect1 rect2 : GameObject) : Bool :=
  decide (rect1.x < rect2.x + rect2.width) &&
  decide (rect1.x + rect1.width > rect2.x) &&
  decide (rect1.y < rect2.y + rect2.height) &&
  decide (rect1.y + rect1.height > rect2.y)

/-- `spawnObstacle()`: a new obstacle at the right edge (`x = canvas.width
= 800`), positioned and sized by its kind, moving at the current game
speed; the kind itself is the outcome of the `Math.random() > 0.6` draw,
supplied by the oracle. -/
def spawnObstacle (ty : OType) (gameSpeed : ℚ) : Obstacle :=
  { x := 800
    y := match ty with | .high => 200 - 60 | .low => 200 - 20
    width := 20
    height := match ty with | .high => 30 | .low => 20
    speed := gameSpeed
    type := ty
    passed := false }

/-- The per-obstacle game-over decision of the game loop: a `'low'`
obstacle triggers game-over when it overlaps the player and the player is
not jumping; a `'high'` obstacle when it overlaps and the player is not
ducking. -/
def obstacleTriggers (player : GameObject) (ob : Obstacle)
    (isJumping isDucking : Bool) : Bool :=
  match ob.type with
  | .low => checkCollision player ob.toGameObject && !isJumping
  | .high => checkCollision player ob.toGameObject && !isDucking

/-- The `obstacles.filter(...)` pass of the game loop with the game
running: move each obstacle left by its speed, mark it `passed` (scoring
one point) once its trailing edge clears the player's leading edge, drop
it (signalling game-over) when it collides without the matching avoidance
state, and otherwise keep it while still on screen (`x > -width`).
Returns the kept obstacles, the score gained, and whether any obstacle
triggered game-over (the source's `gameOver` closure variable stays
`false` for the whole pass, so later obstacles are still processed). -/
def processObstacles (player : GameObject) (isJumping isDucking : Bool) :
    List Obstacle → List Obstacle × ℕ × Bool
  | [] => ([], 0, false)
  | ob :: rest =>
    let moved : Obstacle := { ob with x := ob.x - ob.speed }
    let scores := moved.x + moved.width < player.x ∧ moved.passed = false
    let moved' : Obstacle :=
      if scores then { moved with passed := true } else moved
    let gain : ℕ := if scores then 1 else 0
    let r := processObstacles player isJumping isDucking rest
    if obstacleTriggers player moved' isJumping isDucking then
      (r.1, gain + r.2.1, true)
    else if moved'.x > -moved'.width then
      (moved' :: r.1, gain + r.2.1, r.2.2)
    else
      (r.1, gain + r.2.1, r.2.2)

/-- The simulated part of the runner's mutable state: the obstacle list
and the `frameCount` / `gameSpeed` difficulty counters of
`gameStateRef.current`, the score, and the game-over flag.  `spawnCount`
is the history variable counting `spawnObstacle` calls. -/
structure RunnerState where
  obstacles : List Obstacle
  frameCount : ℕ
  gameSpeed : ℚ
  score : ℕ
  spawnCount : ℕ
  gameOver : Bool
deriving DecidableEq, Repr

/-- The initial runner state: no obstacles, `frameCount = 0`,
`gameSpeed = 5`, score 0. -/
def initRunner : RunnerState :=
  { obstacles := [], frameCount := 0, gameSpeed := 5, score := 0,
    spawnCount := 0, gameOver := false }

/-- One `gameLoop` frame, restricted to the simulated quantities.  The
player rectangle and the jump/duck flags are the frame's inputs (they are
keyboard-owned mutable state in the source); `typeOracle` supplies the
kind draw of the `n`-th spawned obstacle.  When the game is over only the
unconditional off-screen filter of the obstacle pass remains; otherwise:
obstacle movement/scoring/collision, then `frameCount++`, a spawn every
100 frames, and a `+0.5` speed increase every 300 frames. -/
def runnerStep (player : GameObject) (isJumping isDucking : Bool)
    (typeOracle : ℕ → OType) (s : RunnerState) : RunnerState :=
  if s.gameOver then
    { s with obstacles := s.obstacles.filter fun ob => decide (ob.x > -ob.width) }
  else
    let r := processObstacles player isJumping isDucking s.obstacles
    let fc := s.frameCount + 1
    let spawning := fc % 100 = 0
    let obstacles' :=
      if spawning then r.1 ++ [spawnObstacle (typeOracle s.spawnCount) s.gameSpeed]
      else r.1
    { obstacles := obstacles'
      frameCount := fc
      gameSpeed := if fc % 300 = 0 then s.gameSpeed + 0.5 else s.gameSpeed
      score := s.score + r.2.1
      spawnCount := if spawning then s.spawnCount + 1 else s.spawnCount
      gameOver := r.2.2 }

/-- The player rectangle while ducking: `height = 20`,
`y = canvas.height - 20`, at the fixed `x = 50`, `width = 20`. -/
def duckPlayer : GameObject :=
  { x := 50, y := 200 - 20, width := 20, height := 20 }

/-- One frame of a concrete run used to exercise the difficulty code: the
kind oracle always answers `'high'` and the player holds duck (so no
obstacle ever ends the game). -/
def duckStep : RunnerState → RunnerState :=
  runnerStep duckPlayer false true fun _ => OType.high

/-- The ducking run after `n` frames, starting from the initial state. -/
def duckRun (n : ℕ) : RunnerState := duckStep^[n] initRunner

/-- A `'high'` obstacle of the ducking run, positioned at `x` with stored
speed `v` (spawned obstacles of that run are all `'high'` and unpassed). -/
def highObstacleAt (x v : ℚ) : Obstacle :=
  { x := x, y := 140, width := 20, height := 30, speed := v,
    type := OType.high, passed := false }

/-- The ducking run's state at frame 200 (checkpoint for the chunked
evaluation of the run). -/
def duckS200 : RunnerState :=
  { obstacles := [highObstacleAt 300 5, highObstacleAt 800 5],
    frameCount := 200, gameSpeed := 5, score := 0, spawnCount := 2,
    gameOver := false }

/-- The ducking run's state at frame 400. -/
def duckS400 : RunnerState :=
  { obstacles := [highObstacleAt 300 5, highObstacleAt 800 (11/2)],
    frameCount := 400, gameSpeed := 11/2, score := 2, spawnCount := 4,
    gameOver := false }

/-- The ducking run's state at frame 600. -/
def duckS600 : RunnerState :=
  { obstacles := [highObstacleAt 250 (11/2), highObstacleAt 800 (11/2)],
    frameCount := 600, gameSpeed := 6, score := 4, spawnCount := 6,
    gameOver := false }

/-- The ducking run's state at frame 800. -/
def duckS800 : RunnerState :=
  { obstacles := [highObstacleAt 200 6, highObstacleAt 800 6],
    frameCount := 800, gameSpeed := 6, score := 6, spawnCount := 8,
    gameOver := false }

/-- The ducking run's state at frame 1000. -/
def duckS1000 : RunnerState :=
  { obstacles := [highObstacleAt 200 6, highObstacleAt 800 (13/2)],
    frameCount := 1000, gameSpeed := 13/2, score := 8, spawnCount := 10,
    gameOver := false }

/-- The ducking run's state at frame 1200: the score has crossed 10, and
12 obstacles have spawned so far (at frames 100, 200, …, 1200). -/
def duckS1200 : RunnerState :=
  { obstacles := [highObstacleAt 150 (13/2), highObstacleAt 800 (13/2)],
    frameCount := 1200, gameSpeed := 7, score := 10, spawnCount := 12,
    gameOver := false }

/-- The ducking run's state at frame 1299: still no 13th spawn. -/
def duckS1299 : RunnerState :=
  { obstacles := [highObstacleAt (313/2) (13/2)],
    frameCount := 1299, gameSpeed := 7, score := 11, spawnCount := 12,
    gameOver := false }

/-- The ducking run's state at frame 1300: the 13th obstacle spawns
exactly 100 frames after the 12th. -/
def duckS1300 : RunnerState :=
  { obstacles := [highObstacleAt 150 (13/2), highObstacleAt 800 7],
    frameCount := 1300, gameSpeed := 7, score := 11, spawnCount := 13,
    gameOver := false }

/-- A concrete shooter state with three falling loot items, used as the
loot-pickup witness input. -/
def lootState : SpaceShooterState :=
  ⟨3, [], [], [⟨3, 13⟩, ⟨3, 5⟩, ⟨7, 13⟩], 0, false⟩

/-- An oracle in which nothing random happens. -/
def quietEnv : Env := ⟨false, 0, fun _ => false⟩

/-- An oracle in which no meteorite spawns but every destroyed meteorite
drops loot. -/
def lootyEnv : Env := ⟨false, 0, fun _ => true⟩

/-- The loot the collision loop pushes: one item per destroyed pair for
which the `k`-th loot draw fires, at the destroyed meteorite's cell, in
destruction order (a specification-side description of the pushes that
`collideAux` performs; `collideAux` is the embedding of the source
loop). -/
def lootOf (drop : ℕ → Bool) : ℕ → List Pos → List Pos
  | _, [] => []
  | k, c :: rest =>
    if drop k then c :: lootOf drop (k + 1) rest else lootOf drop (k + 1) rest

/-- The spec's grid invariant for one entity: its cell lies within
`[0, GAME_WIDTH) × [0, GAME_HEIGHT)`. -/
def inBounds (q : Pos) : Prop :=
  0 ≤ q.x ∧ q.x < GAME_WIDTH ∧ 0 ≤ q.y ∧ q.y < GAME_HEIGHT

instance instDecidableInBounds (q : Pos) : Decidable (inBounds q) :=
  inferInstanceAs
    (Decidable (0 ≤ q.x ∧ q.x < GAME_WIDTH ∧ 0 ≤ q.y ∧ q.y < GAME_HEIGHT))

/-- The spec's grid invariant for a state: every live meteorite, bullet
and loot item is within bounds. -/
def entitiesInBounds (s : SpaceShooterState) : Prop :=
  (∀ q ∈ s.meteorites, inBounds q) ∧ (∀ q ∈ s.bullets, inBounds q) ∧
  (∀ q ∈ s.loot, inBounds q)

instance instDecidableEntitiesInBounds (s : SpaceShooterState) :
    Decidable (entitiesInBounds s) :=
  inferInstanceAs (Decidable ((∀ q ∈ s.meteorites, inBounds q) ∧
    (∀ q ∈ s.bullets, inBounds q) ∧ (∀ q ∈ s.loot, inBounds q)))

/-- A state with two bullets stacked on the same cell (unreachable in
play, but allowed by the claim's quantification over all states). -/
def dupBulletState : SpaceShooterState :=
  ⟨10, [⟨5, 4⟩], [⟨5, 6⟩, ⟨5, 6⟩], [], 0, false⟩

/-- A state one tick away from a bullet–meteorite collision at (4, 5). -/
def collisionState : SpaceShooterState :=
  ⟨10, [⟨4, 4⟩], [⟨4, 6⟩], [], 0, false⟩

/-- A state whose entities are all in bounds but whose player column 30
lies outside the grid. -/
def outOfRangeState : SpaceShooterState := ⟨30, [], [], [], 0, false⟩

/-- An ordinary in-bounds state with one entity of each kind. -/
def boundedState : SpaceShooterState :=
  ⟨2, [⟨1, 0⟩], [⟨3, 5⟩], [⟨6, 9⟩], 0, false⟩

/-- A `'low'` obstacle overlapping the ducking player, for the collision
rule witness. -/
def lowObsDemo : Obstacle :=
  { x := 55, y := 185, width := 20, height := 15, speed := 5,
    type := OType.low, passed := false }

/-! ## Chunked evaluation of the ducking run

The run is evaluated 200 frames at a time through the literal checkpoint
states above (a single kernel reduction of 1300 nested frames exceeds the
reduction stack). -/

theorem duckRun_add (m n : ℕ) : duckRun (m + n) = duckStep^[m] (duckRun n) :=
  Function.iterate_add_apply duckStep m n initRunner

set_option maxRecDepth 40000 in
theorem duckRun_200 : duckRun 200 = duckS200 := by
  with_unfolding_all decide

set_option maxRecDepth 40000 in
theorem duckRun_400 : duckRun 400 = duckS400 := by
  rw [show (400 : ℕ) = 200 + 200 from rfl, duckRun_add, duckRun_200]
  with_unfolding_all decide

set_option maxRecDepth 40000 in
theorem duckRun_600 : duckRun 600 = duckS600 := by
  rw [show (600 : ℕ) = 200 + 400 from rfl, duckRun_add, duckRun_400]
  with_unfolding_all decide

set_option maxRecDepth 40000 in
theorem duckRun_800 : duckRun 800 = duckS800 := by
  rw [show (800 : ℕ) = 200 + 600 from rfl, duckRun_add, duckRun_600]
  with_unfolding_all decide

set_option maxRecDepth 40000 in
theorem duckRun_1000 : duckRun 1000 = duckS1000 := by
  rw [show (1000 : ℕ) = 200 + 800 from rfl, duckRun_add, duckRun_800]
  with_unfolding_all decide

set_option maxRecDepth 40000 in
theorem duckRun_1200 : duckRun 1200 = duckS1200 := by
  rw [show (1200 : ℕ) = 200 + 1000 from rfl, duckRun_add, duckRun_1000]
  with_unfolding_all decide

set_option maxRecDepth 40000 in
theorem duckRun_1299 : duckRun 1299 = duckS1299 := by
  rw [show (1299 : ℕ) = 99 + 1200 from rfl, duckRun_add, duckRun_1200]
  with_unfolding_all decide

set_option maxRecDepth 40000 in
theorem duckRun_1300 : duckRun 1300 = duckS1300 := by
  rw [show (1300 : ℕ) = 1 + 1299 from rfl, duckRun_add, duckRun_1299]
  with_unfolding_all decide

/-! ## Claim C5: runner difficulty scaling -/

/-- C5 (counterexample): in a run that has crossed the claimed
spawn-interval-decrease threshold (score 10 is reached by frame 1200),
the spawn interval has not decreased: obstacles 1–12 spawn at frames
100, 200, …, 1200, and the 13th spawn happens exactly at frame 1300 —
still 100 frames after the 12th, refuting "the spawn interval strictly
decreases". -/
theorem c5_spawn_interval_counterexample :
    (duckRun 1200).score = 10 ∧ (duckRun 1200).spawnCount = 12 ∧
    (duckRun 1299).spawnCount = 12 ∧ (duckRun 1300).spawnCount = 13 ∧
    (duckRun 1300).gameOver = false := by
  rw [duckRun_1200, duckRun_1299, duckRun_1300]
  decide

/-- C5 (amended): the spawn schedule is a fixed 100-frame interval,
independent of the score (no decrease, hence no floor is ever exercised),
and every 300 elapsed frames the scroll speed increases by 0.5 with no
cap: on every running frame the frame counter advances by one, an
obstacle spawns exactly when the new frame count is a multiple of 100,
and the speed gains 0.5 exactly when it is a multiple of 300. -/
theorem c5_difficulty_amended (player : GameObject) (isJumping isDucking : Bool)
    (typeOracle : ℕ → OType) (s : RunnerState) (h : s.gameOver = false) :
    ((runnerStep player isJumping isDucking typeOracle s).frameCount
        = s.frameCount + 1) ∧
    ((runnerStep player isJumping isDucking typeOracle s).spawnCount
        = if (s.frameCount + 1) % 100 = 0 then s.spawnCount + 1
          else s.spawnCount) ∧
    ((runnerStep player isJumping isDucking typeOracle s).gameSpeed
        = if (s.frameCount + 1) % 300 = 0 then s.gameSpeed + 0.5
          else s.gameSpeed) := by
  simp [runnerStep, h]

/-- Witness for `c5_difficulty_amended` at the initial state. -/
theorem c5_difficulty_amended_witness :
    initRunner.gameOver = false ∧
    (((runnerStep duckPlayer false true (fun _ => OType.high) initRunner).frameCount
        = initRunner.frameCount + 1) ∧
     ((runnerStep duckPlayer false true (fun _ => OType.high) initRunner).spawnCount
        = if (initRunner.frameCount + 1) % 100 = 0 then initRunner.spawnCount + 1
          else initRunner.spawnCount) ∧
     ((runnerStep duckPlayer false true (fun _ => OType.high) initRunner).gameSpeed
        = if (initRunner.frameCount + 1) % 300 = 0 then initRunner.gameSpeed + 0.5
          else initRunner.gameSpeed)) :=
  ⟨rfl, c5_difficulty_amended duckPlayer false true (fun _ => OType.high) initRunner rfl⟩

/-! ## Claim C3: game-over freezes the space shooter -/

/-- C3: once `gameOver` is set, `updateSpaceShooter` returns its input
unchanged for every action and every oracle outcome — player position,
meteorites, bullets, loot, score and spawning are all untouched. -/
theorem c3_gameOver_freeze (s : SpaceShooterState) (action : String) (env : Env)
    (h : s.gameOver = true) : updateSpaceShooter s action env = s := by
  simp [updateSpaceShooter, h]

/-- Witness for `c3_gameOver_freeze` on a concrete dead state. -/
theorem c3_gameOver_freeze_witness :
    (⟨3, [⟨1, 2⟩], [⟨4, 4⟩], [⟨2, 9⟩], 70, true⟩ : SpaceShooterState).gameOver
        = true ∧
    updateSpaceShooter ⟨3, [⟨1, 2⟩], [⟨4, 4⟩], [⟨2, 9⟩], 70, true⟩ "d"
        ⟨true, 5, fun _ => true⟩
      = ⟨3, [⟨1, 2⟩], [⟨4, 4⟩], [⟨2, 9⟩], 70, true⟩ :=
  ⟨rfl, c3_gameOver_freeze _ "d" _ rfl⟩

/-! ## Helper lemmas about the full tick -/

/-- `fullTick` only inspects the action through `action = " "`; any
non-fire action behaves like the driver's empty tick `""`. -/
theorem fullTick_action_ne_space (s : SpaceShooterState) (env : Env)
    {action : String} (ha : action ≠ " ") :
    fullTick s action env = fullTick s "" env := by
  simp [fullTick, ha]

/-- A full tick never moves the player. -/
theorem fullTick_playerPos (s : SpaceShooterState) (action : String)
    (env : Env) : (fullTick s action env).playerPos = s.playerPos := by
  simp [fullTick]

/-- The collision loop never decreases the score accumulator. -/
theorem collideAux_score_le (drop : ℕ → Bool) (bs ms : List Pos) (sc : ℤ)
    (nl : List Pos) (k : ℕ) : sc ≤ (collideAux drop bs ms sc nl k).score := by
  induction bs generalizing ms sc nl k with
  | nil => exact le_refl _
  | cons b rest ih =>
    rw [collideAux]
    cases hrm : removeLastAt b ms with
    | none => exact ih ms sc nl k
    | some ms' =>
      exact le_trans (by omega) (ih ms' (sc + 10) _ (k + 1))

/-- The collision section never decreases the score. -/
theorem collide_score_le (drop : ℕ → Bool) (bs ms : List Pos) (sc : ℤ) :
    sc ≤ (collide drop bs ms sc).score :=
  collideAux_score_le drop bs.reverse ms sc [] 0

/-- Loot collection only ever adds to the score. -/
theorem collectLoot_bonus_nonneg (p : ℤ) (l : List Pos) :
    0 ≤ (collectLoot p l).2 := by
  induction l with
  | nil => exact le_refl _
  | cons item rest ih =>
    rw [collectLoot]
    split
    · simpa using le_trans ih (by omega)
    · exact ih

/-! ## Claim C9: score monotonicity -/

/-- C9: on every non-game-over state and for every action and oracle
outcome, the score of the updated state is at least the current score. -/
theorem c9_score_monotone (s : SpaceShooterState) (action : String)
    (env : Env) (h : s.gameOver = false) :
    s.score ≤ (updateSpaceShooter s action env).score := by
  rw [updateSpaceShooter, if_neg (by simp [h])]
  split
  · exact le_refl _
  · split
    · exact le_refl _
    · show s.score ≤ (fullTick s action env).score
      have h1 := collide_score_le env.lootDrop
        (moveBullets (if action = " "
          then s.bullets ++ [⟨s.playerPos, GAME_HEIGHT - 2⟩] else s.bullets))
        (spawnMeteorites env (moveDown s.meteorites)) s.score
      have h2 := collectLoot_bonus_nonneg s.playerPos
        (moveDown (s.loot ++ (collide env.lootDrop
          (moveBullets (if action = " "
            then s.bullets ++ [⟨s.playerPos, GAME_HEIGHT - 2⟩] else s.bullets))
          (spawnMeteorites env (moveDown s.meteorites)) s.score).newLoot))
      simp only [fullTick]
      omega

/-- Witness for `c9_score_monotone` on a state about to collect loot. -/
theorem c9_score_monotone_witness :
    (⟨3, [], [], [⟨3, 13⟩], 20, false⟩ : SpaceShooterState).gameOver = false ∧
    (⟨3, [], [], [⟨3, 13⟩], 20, false⟩ : SpaceShooterState).score ≤
      (updateSpaceShooter ⟨3, [], [], [⟨3, 13⟩], 20, false⟩ ""
        ⟨false, 0, fun _ => false⟩).score :=
  ⟨rfl, c9_score_monotone _ "" _ rfl⟩

/-! ## Claim C10: blocked edge moves fall through to a full tick -/

/-- C10: with the player at the left edge, a `move-left` action does not
short-circuit the tick but is processed exactly like the driver's empty
tick (entities advance, spawning and collisions evaluated), and the
player does not move; symmetrically for `move-right` at the right edge. -/
theorem c10_boundary_move_is_empty_tick (s : SpaceShooterState) (env : Env)
    (h : s.gameOver = false) :
    (s.playerPos = 0 →
      updateSpaceShooter s "a" env = updateSpaceShooter s "" env ∧
      (updateSpaceShooter s "a" env).playerPos = s.playerPos) ∧
    (s.playerPos = GAME_WIDTH - 1 →
      updateSpaceShooter s "d" env = updateSpaceShooter s "" env ∧
      (updateSpaceShooter s "d" env).playerPos = s.playerPos) := by
  constructor
  · intro h0
    have ea : updateSpaceShooter s "a" env = fullTick s "a" env := by
      rw [updateSpaceShooter, if_neg (by simp [h]),
        if_neg (by simp [h0]), if_neg (fun hc => by exact absurd hc.1 (by decide))]
    have ee : updateSpaceShooter s "" env = fullTick s "" env := by
      rw [updateSpaceShooter, if_neg (by simp [h]),
        if_neg (fun hc => by exact absurd hc.1 (by decide)),
        if_neg (fun hc => by exact absurd hc.1 (by decide))]
    rw [ea, ee, fullTick_action_ne_space s env (by decide)]
    exact ⟨rfl, fullTick_playerPos s "" env⟩
  · intro h0
    have ed : updateSpaceShooter s "d" env = fullTick s "d" env := by
      rw [updateSpaceShooter, if_neg (by simp [h]),
        if_neg (fun hc => by exact absurd hc.1 (by decide)),
        if_neg (by simp [h0, GAME_WIDTH])]
    have ee : updateSpaceShooter s "" env = fullTick s "" env := by
      rw [updateSpaceShooter, if_neg (by simp [h]),
        if_neg (fun hc => by exact absurd hc.1 (by decide)),
        if_neg (fun hc => by exact absurd hc.1 (by decide))]
    rw [ed, ee, fullTick_action_ne_space s env (by decide)]
    exact ⟨rfl, fullTick_playerPos s "" env⟩

/-- Witness for `c10_boundary_move_is_empty_tick` at both edges. -/
theorem c10_boundary_move_is_empty_tick_witness :
    ((⟨0, [⟨1, 1⟩], [⟨2, 5⟩], [⟨3, 7⟩], 0, false⟩ : SpaceShooterState).gameOver
        = false ∧
      ((⟨0, [⟨1, 1⟩], [⟨2, 5⟩], [⟨3, 7⟩], 0, false⟩ : SpaceShooterState).playerPos = 0 →
        updateSpaceShooter ⟨0, [⟨1, 1⟩], [⟨2, 5⟩], [⟨3, 7⟩], 0, false⟩ "a"
            ⟨true, 4, fun _ => false⟩
          = updateSpaceShooter ⟨0, [⟨1, 1⟩], [⟨2, 5⟩], [⟨3, 7⟩], 0, false⟩ ""
            ⟨true, 4, fun _ => false⟩ ∧
        (updateSpaceShooter ⟨0, [⟨1, 1⟩], [⟨2, 5⟩], [⟨3, 7⟩], 0, false⟩ "a"
            ⟨true, 4, fun _ => false⟩).playerPos = 0)) ∧
    ((⟨19, [], [], [], 0, false⟩ : SpaceShooterState).gameOver = false ∧
      ((⟨19, [], [], [], 0, false⟩ : SpaceShooterState).playerPos = GAME_WIDTH - 1 →
        updateSpaceShooter ⟨19, [], [], [], 0, false⟩ "d" ⟨false, 0, fun _ => true⟩
          = updateSpaceShooter ⟨19, [], [], [], 0, false⟩ "" ⟨false, 0, fun _ => true⟩ ∧
        (updateSpaceShooter ⟨19, [], [], [], 0, false⟩ "d"
            ⟨false, 0, fun _ => true⟩).playerPos = 19)) :=
  ⟨⟨rfl, (c10_boundary_move_is_empty_tick _ _ rfl).1⟩,
   ⟨rfl, fun hp => by
      have := (c10_boundary_move_is_empty_tick
        (⟨19, [], [], [], 0, false⟩ : SpaceShooterState)
        ⟨false, 0, fun _ => true⟩ rfl).2 hp
      exact this⟩⟩

/-! ## Claim C4: movement short-circuit -/

/-- C4 (counterexample): with the player already at the left edge, a
`move-left` action does **not** short-circuit the tick: the bullet at
(3, 5) advances to (3, 4) on this movement tick, refuting "on a movement
tick no bullet, meteorite, or loot moves". -/
theorem c4_movement_counterexample :
    (⟨0, [], [⟨3, 5⟩], [], 0, false⟩ : SpaceShooterState).gameOver = false ∧
    (updateSpaceShooter ⟨0, [], [⟨3, 5⟩], [], 0, false⟩ "a"
        ⟨false, 0, fun _ => false⟩).bullets = [⟨3, 4⟩] := by
  decide

/-- C4 (amended): an unblocked `move-left` / `move-right` applies
immediately and short-circuits the whole rest of the tick (the result is
the input state with only the player position changed), the player
position stays clamped within `[0, GAME_WIDTH - 1]`, and a move blocked
by the grid edge instead falls through to a full tick. -/
theorem c4_movement_amended (s : SpaceShooterState) (env : Env)
    (h : s.gameOver = false) :
    (0 < s.playerPos →
      updateSpaceShooter s "a" env = { s with playerPos := s.playerPos - 1 }) ∧
    (s.playerPos < GAME_WIDTH - 1 →
      updateSpaceShooter s "d" env = { s with playerPos := s.playerPos + 1 }) ∧
    (0 ≤ s.playerPos ∧ s.playerPos ≤ GAME_WIDTH - 1 →
      (0 ≤ (updateSpaceShooter s "a" env).playerPos ∧
        (updateSpaceShooter s "a" env).playerPos ≤ GAME_WIDTH - 1) ∧
      (0 ≤ (updateSpaceShooter s "d" env).playerPos ∧
        (updateSpaceShooter s "d" env).playerPos ≤ GAME_WIDTH - 1)) := by
  refine ⟨fun hl => ?_, fun hr => ?_, fun hin => ?_⟩
  · rw [updateSpaceShooter, if_neg (by simp [h]), if_pos ⟨rfl, hl⟩]
  · rw [updateSpaceShooter, if_neg (by simp [h]),
      if_neg (fun hc => by exact absurd hc.1 (by decide)), if_pos ⟨rfl, hr⟩]
  · constructor
    · by_cases hl : 0 < s.playerPos
      · rw [updateSpaceShooter, if_neg (by simp [h]), if_pos ⟨rfl, hl⟩]
        simp only []
        omega
      · have ea : updateSpaceShooter s "a" env = fullTick s "a" env := by
          rw [updateSpaceShooter, if_neg (by simp [h]),
            if_neg (fun hc => absurd hc.2 hl),
            if_neg (fun hc => by exact absurd hc.1 (by decide))]
        rw [ea, fullTick_playerPos]
        omega
    · by_cases hr : s.playerPos < GAME_WIDTH - 1
      · rw [updateSpaceShooter, if_neg (by simp [h]),
          if_neg (fun hc => by exact absurd hc.1 (by decide)), if_pos ⟨rfl, hr⟩]
        simp only []
        rw [GAME_WIDTH] at hr ⊢
        omega
      · have ed : updateSpaceShooter s "d" env = fullTick s "d" env := by
          rw [updateSpaceShooter, if_neg (by simp [h]),
            if_neg (fun hc => by exact absurd hc.1 (by decide)),
            if_neg (fun hc => absurd hc.2 hr)]
        rw [ed, fullTick_playerPos]
        omega

/-- Witness for `c4_movement_amended` with the player mid-grid. -/
theorem c4_movement_amended_witness :
    (⟨7, [⟨1, 1⟩], [⟨2, 5⟩], [], 0, false⟩ : SpaceShooterState).gameOver = false ∧
    ((0 < (7 : ℤ) →
      updateSpaceShooter ⟨7, [⟨1, 1⟩], [⟨2, 5⟩], [], 0, false⟩ "a"
          ⟨true, 2, fun _ => true⟩
        = ⟨6, [⟨1, 1⟩], [⟨2, 5⟩], [], 0, false⟩) ∧
     ((7 : ℤ) < GAME_WIDTH - 1 →
      updateSpaceShooter ⟨7, [⟨1, 1⟩], [⟨2, 5⟩], [], 0, false⟩ "d"
          ⟨true, 2, fun _ => true⟩
        = ⟨8, [⟨1, 1⟩], [⟨2, 5⟩], [], 0, false⟩)) :=
  ⟨rfl,
    (c4_movement_amended ⟨7, [⟨1, 1⟩], [⟨2, 5⟩], [], 0, false⟩
      ⟨true, 2, fun _ => true⟩ rfl).1,
    (c4_movement_amended ⟨7, [⟨1, 1⟩], [⟨2, 5⟩], [], 0, false⟩
      ⟨true, 2, fun _ => true⟩ rfl).2.1⟩

/-! ## Helper lemmas about the collision loop -/

/-- `removeLastAt` fails exactly when no meteorite sits at the cell. -/
theorem removeLastAt_eq_none_iff (p : Pos) (ms : List Pos) :
    removeLastAt p ms = none ↔ p ∉ ms := by
  induction ms with
  | nil => simp [removeLastAt]
  | cons m rest ih =>
    rw [removeLastAt]
    cases hrm : removeLastAt p rest with
    | none =>
      rw [hrm] at ih
      by_cases hm : m = p
      · simp [hm, if_pos]
      · simp only [hm, if_false, List.mem_cons]
        constructor
        · intro _
          exact not_or.mpr ⟨fun hx : p = m => hm hx.symm, ih.mp rfl⟩
        · intro _
          trivial
    | some rest' =>
      have : p ∈ rest := by
        by_contra hn
        rw [(ih.mpr hn : removeLastAt p rest = none)] at hrm
        exact Option.noConfusion hrm
      simp [this]

/-- Processing a bullet with no meteorite at its cell keeps the bullet
and leaves everything else to the remaining bullets. -/
theorem collideAux_cons_none (drop : ℕ → Bool) (b : Pos) (rest ms : List Pos)
    (sc : ℤ) (nl : List Pos) (k : ℕ) (hb : b ∉ ms) :
    collideAux drop (b :: rest) ms sc nl k =
      { collideAux drop rest ms sc nl k with
          bullets := b :: (collideAux drop rest ms sc nl k).bullets } := by
  rw [collideAux, (removeLastAt_eq_none_iff b ms).mpr hb]

/-- The last-pushed bullet is examined first; when no meteorite sits at
its cell it survives the whole collision section. -/
theorem collide_last_bullet_mem (drop : ℕ → Bool) (xs : List Pos) (b : Pos)
    (ms : List Pos) (sc : ℤ) (hb : b ∉ ms) :
    b ∈ (collide drop (xs ++ [b]) ms sc).bullets := by
  rw [collide]
  simp only [List.reverse_append, List.reverse_cons, List.reverse_nil,
    List.nil_append, List.singleton_append]
  rw [collideAux_cons_none drop b xs.reverse ms sc [] 0 hb]
  simp

/-- Generic reduction of `updateSpaceShooter` to the full tick when the
state is live and neither movement guard fires. -/
theorem updateSpaceShooter_eq_fullTick (s : SpaceShooterState) (env : Env)
    {action : String} (h : s.gameOver = false)
    (ha : ¬(action = "a" ∧ s.playerPos > 0))
    (hd : ¬(action = "d" ∧ s.playerPos < GAME_WIDTH - 1)) :
    updateSpaceShooter s action env = fullTick s action env := by
  rw [updateSpaceShooter, if_neg (by simp [h]), if_neg ha, if_neg hd]

/-- Firing appends the bullet one row above the player; moving the
bullets in the same tick puts it one further row up. -/
theorem moveBullets_fire_append (xs : List Pos) (p : ℤ) :
    moveBullets (xs ++ [⟨p, GAME_HEIGHT - 2⟩]) =
      moveBullets xs ++ [⟨p, GAME_HEIGHT - 3⟩] := by
  simp only [moveBullets, List.map_append, List.filter_append, List.map_cons,
    List.map_nil, List.filter_cons, List.filter_nil]
  norm_num [GAME_HEIGHT]

/-! ## Claim C8: the fire action -/

/-- C8 (counterexample): from the initial state, firing yields a state
whose only bullet sits at (10, 12) — two rows above the player on row 14,
not one: no bullet of the returned state is one row above the player,
refuting the claim as a post-state property. -/
theorem c8_fire_counterexample :
    initializeSpaceShooter.gameOver = false ∧
    (updateSpaceShooter initializeSpaceShooter " "
        ⟨false, 0, fun _ => false⟩).bullets = [⟨10, 12⟩] ∧
    (⟨10, 13⟩ : Pos) ∉ (updateSpaceShooter initializeSpaceShooter " "
        ⟨false, 0, fun _ => false⟩).bullets := by
  decide

/-- C8 (amended): firing appends a bullet at the player's column one row
above the player (row `GAME_HEIGHT - 2`); that bullet then advances with
the other bullets during the same tick, so the returned state contains it
at the player's column two rows above the player (row `GAME_HEIGHT - 3`),
provided no meteorite lands on that cell this tick. -/
theorem c8_fire_amended (s : SpaceShooterState) (env : Env)
    (h : s.gameOver = false)
    (hm : ∀ m ∈ s.meteorites, ¬(m.x = s.playerPos ∧ m.y + 1 = GAME_HEIGHT - 3)) :
    (⟨s.playerPos, GAME_HEIGHT - 3⟩ : Pos) ∈
      (updateSpaceShooter s " " env).bullets := by
  rw [updateSpaceShooter_eq_fullTick s env h
    (fun hc => by exact absurd hc.1 (by decide))
    (fun hc => by exact absurd hc.1 (by decide))]
  have hnm : (⟨s.playerPos, GAME_HEIGHT - 3⟩ : Pos) ∉
      spawnMeteorites env (moveDown s.meteorites) := by
    intro hmem
    rw [spawnMeteorites] at hmem
    have hmem' : (⟨s.playerPos, GAME_HEIGHT - 3⟩ : Pos) ∈ moveDown s.meteorites ∨
        (⟨s.playerPos, GAME_HEIGHT - 3⟩ : Pos) = ⟨((env.spawnX : ℕ) : ℤ), 0⟩ := by
      by_cases hs : env.spawnMeteor
      · rw [if_pos hs] at hmem
        rcases List.mem_append.mp hmem with h1 | h2
        · exact Or.inl h1
        · exact Or.inr (List.mem_singleton.mp h2)
      · rw [if_neg hs] at hmem
        exact Or.inl hmem
    rcases hmem' with h1 | h2
    · rcases List.mem_map.mp h1 with ⟨m, hm1, hm2⟩
      have hx : m.x = s.playerPos := congrArg Pos.x hm2
      have hy : m.y + 1 = GAME_HEIGHT - 3 := congrArg Pos.y hm2
      exact hm m hm1 ⟨hx, hy⟩
    · have : (GAME_HEIGHT - 3 : ℤ) = 0 := congrArg Pos.y h2
      exact absurd this (by decide)
  simp only [fullTick, if_true]
  rw [moveBullets_fire_append]
  exact collide_last_bullet_mem env.lootDrop (moveBullets s.bullets)
    ⟨s.playerPos, GAME_HEIGHT - 3⟩
    (spawnMeteorites env (moveDown s.meteorites)) s.score hnm

/-- Witness for `c8_fire_amended` on a state with one meteorite clear of
the bullet's path. -/
theorem c8_fire_amended_witness :
    (⟨5, [⟨5, 3⟩], [], [], 0, false⟩ : SpaceShooterState).gameOver = false ∧
    (∀ m ∈ (⟨5, [⟨5, 3⟩], [], [], 0, false⟩ : SpaceShooterState).meteorites,
      ¬(m.x = 5 ∧ m.y + 1 = GAME_HEIGHT - 3)) ∧
    (⟨5, GAME_HEIGHT - 3⟩ : Pos) ∈
      (updateSpaceShooter ⟨5, [⟨5, 3⟩], [], [], 0, false⟩ " "
        ⟨true, 7, fun _ => true⟩).bullets :=
  ⟨rfl, by decide,
    c8_fire_amended ⟨5, [⟨5, 3⟩], [], [], 0, false⟩ ⟨true, 7, fun _ => true⟩
      rfl (by decide)⟩

/-- The loot-collection loop keeps exactly the items away from the
player's cell and pays 50 per collected item. -/
theorem collectLoot_eq (p : ℤ) (l : List Pos) :
    collectLoot p l =
      (l.filter fun it => !(decide (it.y = GAME_HEIGHT - 1 ∧ it.x = p)),
       50 * ((l.countP fun it => decide (it.y = GAME_HEIGHT - 1 ∧ it.x = p)) : ℤ)) := by
  induction l with
  | nil => simp [collectLoot]
  | cons item rest ih =>
    rw [collectLoot, ih]
    by_cases hit : item.y = GAME_HEIGHT - 1 ∧ item.x = p
    · rw [if_pos hit]
      simp only [List.filter_cons, List.countP_cons, hit]
      simp
      omega
    · rw [if_neg hit]
      simp only [List.filter_cons, List.countP_cons]
      simp [hit]

/-! ## Claim C7: loot pickup -/

/-- C7: on a tick that reaches the loot phase (here an empty tick of a
live state with no bullets in flight, isolating the loot accounting),
every loot item that falls onto the player's cell
(`y = GAME_HEIGHT - 1`, `x = playerPos`) is removed and pays 50 — the
score rises by 50 per collected item, and 50 exceeds the kill value 10 —
while a loot item at the player's column but a different row is not
collected and continues falling: it appears in the result at its
one-row-lower position (as long as that is still on the field). -/
theorem c7_loot_pickup (s : SpaceShooterState) (env : Env)
    (hg : s.gameOver = false) (hb : s.bullets = []) :
    ((updateSpaceShooter s "" env).score =
        s.score + 50 * ((moveDown s.loot).countP fun it =>
          decide (it.y = GAME_HEIGHT - 1 ∧ it.x = s.playerPos))) ∧
    (∀ it ∈ moveDown s.loot, it.y = GAME_HEIGHT - 1 → it.x = s.playerPos →
        it ∉ (updateSpaceShooter s "" env).loot) ∧
    (∀ it ∈ moveDown s.loot, it.x = s.playerPos → it.y ≠ GAME_HEIGHT - 1 →
        it.y < GAME_HEIGHT → it ∈ (updateSpaceShooter s "" env).loot) ∧
    ((50 : ℤ) > 10) := by
  rw [updateSpaceShooter_eq_fullTick s env hg
    (fun hc => by exact absurd hc.1 (by decide))
    (fun hc => by exact absurd hc.1 (by decide))]
  have h0 : moveBullets s.bullets = [] := by rw [hb]; rfl
  have hcol : collide env.lootDrop (moveBullets s.bullets)
      (spawnMeteorites env (moveDown s.meteorites)) s.score =
      ⟨[], spawnMeteorites env (moveDown s.meteorites), s.score, [], 0⟩ := by
    rw [h0]; rfl
  simp only [fullTick]
  rw [if_neg (show ¬("" : String) = " " by decide), hcol]
  dsimp only
  simp only [List.append_nil]
  rw [collectLoot_eq]
  dsimp only
  refine ⟨rfl, ?_, ?_, by norm_num⟩
  · intro it hmem hy hx
    intro hcontra
    have h1 := (List.mem_filter.mp hcontra).1
    have h2 := (List.mem_filter.mp h1).2
    simp only [Bool.not_eq_true', decide_eq_false_iff_not] at h2
    exact h2 ⟨hy, hx⟩
  · intro it hmem hx hy hlt
    apply List.mem_filter.mpr
    refine ⟨List.mem_filter.mpr ⟨hmem, ?_⟩, by simpa using hlt⟩
    simp only [Bool.not_eq_true', decide_eq_false_iff_not]
    intro hc
    exact hy hc.1

/-- Witness for `c7_loot_pickup`: the player at column 3 collects the
item landing on (3, 14) while the items landing at (3, 6) and (7, 14)
are not collected. -/
theorem c7_loot_pickup_witness :
    lootState.gameOver = false ∧ lootState.bullets = [] ∧
    (((updateSpaceShooter lootState "" quietEnv).score =
        lootState.score + 50 * ((moveDown lootState.loot).countP fun it =>
          decide (it.y = GAME_HEIGHT - 1 ∧ it.x = lootState.playerPos))) ∧
     (∀ it ∈ moveDown lootState.loot, it.y = GAME_HEIGHT - 1 →
        it.x = lootState.playerPos →
        it ∉ (updateSpaceShooter lootState "" quietEnv).loot) ∧
     (∀ it ∈ moveDown lootState.loot, it.x = lootState.playerPos →
        it.y ≠ GAME_HEIGHT - 1 → it.y < GAME_HEIGHT →
        it ∈ (updateSpaceShooter lootState "" quietEnv).loot) ∧
     ((50 : ℤ) > 10)) :=
  ⟨rfl, rfl, c7_loot_pickup lootState quietEnv rfl rfl⟩

/-- On a duplicate-free meteorite list, the backwards inner loop removes
exactly the (unique) meteorite at the cell. -/
theorem removeLastAt_nodup_mem (b : Pos) (ms : List Pos) (hms : ms.Nodup)
    (hb : b ∈ ms) : removeLastAt b ms = some (ms.erase b) := by
  induction ms with
  | nil => cases hb
  | cons m rest ih =>
    have hmr := List.nodup_cons.mp hms
    rw [removeLastAt]
    by_cases hbr : b ∈ rest
    · rw [ih hmr.2 hbr]
      have hmb : ¬(m = b) := fun he => hmr.1 (he ▸ hbr)
      rw [List.erase_cons_tail (by simpa using hmb)]
    · have hbm : b = m := by
        rcases List.mem_cons.mp hb with h | h
        · exact h
        · exact absurd h hbr
      rw [(removeLastAt_eq_none_iff b rest).mpr hbr, if_pos hbm.symm, hbm,
        List.erase_cons_head]

/-- Processing a bullet that finds a meteorite consumes it, scores 10,
consults the loot oracle, and hands the rest of the loop the reduced
meteorite list. -/
theorem collideAux_cons_some (drop : ℕ → Bool) (b : Pos) (rest ms ms' : List Pos)
    (sc : ℤ) (nl : List Pos) (k : ℕ) (h : removeLastAt b ms = some ms') :
    collideAux drop (b :: rest) ms sc nl k =
      collideAux drop rest ms' (sc + 10) (if drop k then nl ++ [b] else nl)
        (k + 1) := by
  rw [collideAux, h]

/-- Full characterisation of the collision loop on duplicate-free lists:
the surviving bullets are those with no meteorite at their cell, the
surviving meteorites those with no bullet at their cell, the score grows
by 10 per colliding pair, and one loot item is pushed per destroyed pair
for which the oracle fires, at the destroyed meteorite's cell. -/
theorem collideAux_eq (drop : ℕ → Bool) (bs : List Pos) :
    ∀ (ms : List Pos) (sc : ℤ) (nl : List Pos) (k : ℕ), bs.Nodup → ms.Nodup →
    collideAux drop bs ms sc nl k =
      ⟨bs.filter (fun b => !(decide (b ∈ ms))),
       ms.filter (fun m => !(decide (m ∈ bs))),
       sc + 10 * ((bs.countP (fun b => decide (b ∈ ms))) : ℤ),
       nl ++ lootOf drop k (bs.filter (fun b => decide (b ∈ ms))),
       k + bs.countP (fun b => decide (b ∈ ms))⟩ := by
  induction bs with
  | nil =>
    intro ms sc nl k _ _
    simp [collideAux, lootOf]
  | cons b rest ih =>
    intro ms sc nl k hbs hms
    have hbrest : b ∉ rest := (List.nodup_cons.mp hbs).1
    have hrest : rest.Nodup := (List.nodup_cons.mp hbs).2
    have hcongr_mem : ∀ x ∈ rest, (decide (x ∈ ms.erase b)) = (decide (x ∈ ms)) := by
      intro x hx
      have hxb : x ≠ b := fun he => hbrest (he ▸ hx)
      by_cases hxm : x ∈ ms
      · simp [hxm, (List.mem_erase_of_ne hxb).mpr hxm]
      · have hne : x ∉ ms.erase b := fun hc => hxm ((List.mem_erase_of_ne hxb).mp hc)
        simp [hxm, hne]
    by_cases hb : b ∈ ms
    · rw [collideAux_cons_some drop b rest ms (ms.erase b) sc nl k
        (removeLastAt_nodup_mem b ms hms hb),
        ih (ms.erase b) (sc + 10) _ (k + 1) hrest (hms.erase b)]
      have hcount : rest.countP (fun x => decide (x ∈ ms.erase b)) =
          rest.countP (fun x => decide (x ∈ ms)) :=
        List.countP_congr fun x hx => by simp only [hcongr_mem x hx]
      congr 1
      · rw [List.filter_cons_of_neg (by simp [hb])]
        exact List.filter_congr fun x hx => by rw [hcongr_mem x hx]
      · rw [hms.erase_eq_filter b, List.filter_filter]
        refine List.filter_congr fun m hm => ?_
        by_cases hmb : m = b
        · simp [hmb, hb]
        · by_cases hmr : m ∈ rest <;>
            simp [hmb, hmr, List.mem_cons, fun h : m = b => hmb h]
      · rw [hcount, List.countP_cons]
        simp [hb]
        ring
      · rw [List.filter_cons_of_pos (by simp [hb]), lootOf]
        have : rest.filter (fun x => decide (x ∈ ms.erase b)) =
            rest.filter (fun x => decide (x ∈ ms)) :=
          List.filter_congr fun x hx => by rw [hcongr_mem x hx]
        rw [this]
        by_cases hdk : drop k
        · rw [if_pos hdk, if_pos hdk, List.append_assoc, List.singleton_append]
        · rw [if_neg hdk, if_neg hdk]
      · rw [hcount, List.countP_cons]
        simp [hb]
        omega
    · rw [collideAux_cons_none drop b rest ms sc nl k hb,
        ih ms sc nl k hrest hms]
      dsimp only
      have hmcongr : ∀ m ∈ ms,
          (!(decide (m ∈ rest))) = (!(decide (m ∈ b :: rest))) := by
        intro m hm
        have hmb : ¬(m = b) := fun he => hb (he ▸ hm)
        by_cases hmr : m ∈ rest <;> simp [hmr, List.mem_cons, hmb]
      congr 1
      · rw [List.filter_cons_of_pos (by simp [hb])]
      · exact List.filter_congr hmcongr
      · rw [List.countP_cons]
        simp [hb]
      · rw [List.filter_cons_of_neg (by simp [hb])]
      · rw [List.countP_cons]
        simp [hb]

/-- The collision section on duplicate-free lists, with the bullet order
restored. -/
theorem collide_eq (drop : ℕ → Bool) (bs ms : List Pos) (sc : ℤ)
    (hbs : bs.Nodup) (hms : ms.Nodup) :
    collide drop bs ms sc =
      ⟨bs.filter (fun b => !(decide (b ∈ ms))),
       ms.filter (fun m => !(decide (m ∈ bs))),
       sc + 10 * ((bs.countP (fun b => decide (b ∈ ms))) : ℤ),
       lootOf drop 0 (bs.reverse.filter (fun b => decide (b ∈ ms))),
       bs.countP (fun b => decide (b ∈ ms))⟩ := by
  rw [collide, collideAux_eq drop bs.reverse ms sc [] 0 (by simpa using hbs) hms]
  dsimp only
  congr 1
  · rw [List.filter_reverse, List.reverse_reverse]
  · refine List.filter_congr fun m hm => ?_
    simp [List.mem_reverse]
  · rw [List.countP_eq_length_filter, List.countP_eq_length_filter,
      List.filter_reverse, List.length_reverse]
  · rw [List.countP_eq_length_filter, List.countP_eq_length_filter,
      List.filter_reverse, List.length_reverse]
    omega

/-! ## Claim C2: bullet–meteorite collision -/

/-- C2 (counterexample): with two bullets stacked on one cell (a state
the claim's "for every non-game-over state" admits), both bullets and the
meteorite occupy cell (5, 5) mid-tick, yet one bullet survives the tick
and the score rises by 10 — not once per bullet–meteorite pair (which
would be 20), refuting the claim as stated. -/
theorem c2_collision_counterexample :
    dupBulletState.gameOver = false ∧
    moveBullets dupBulletState.bullets = [⟨5, 5⟩, ⟨5, 5⟩] ∧
    spawnMeteorites quietEnv (moveDown dupBulletState.meteorites) = [⟨5, 5⟩] ∧
    (updateSpaceShooter dupBulletState "" quietEnv).bullets = [⟨5, 5⟩] ∧
    (updateSpaceShooter dupBulletState "" quietEnv).score = 10 := by
  decide

/-- C2 (amended): on an empty tick of a live state whose moved bullet
cells and moved-and-spawned meteorite cells are each duplicate-free (true
of every state the game can reach), any bullet and meteorite sharing a
cell are both removed in that same tick, the score grows by the kill
value 10 exactly once per such pair (plus 50 per loot item collected this
tick), and one loot item is spawned per destroyed pair for which the loot
oracle fires, at the destroyed meteorite's cell. -/
theorem c2_collision_amended (s : SpaceShooterState) (env : Env)
    (h : s.gameOver = false)
    (hB : (moveBullets s.bullets).Nodup)
    (hM : (spawnMeteorites env (moveDown s.meteorites)).Nodup) :
    ((updateSpaceShooter s "" env).bullets =
        (moveBullets s.bullets).filter fun b =>
          !(decide (b ∈ spawnMeteorites env (moveDown s.meteorites)))) ∧
    ((updateSpaceShooter s "" env).meteorites =
        ((spawnMeteorites env (moveDown s.meteorites)).filter fun m =>
          !(decide (m ∈ moveBullets s.bullets))).filter fun m =>
            decide (m.y < GAME_HEIGHT)) ∧
    ((updateSpaceShooter s "" env).score =
        s.score + 10 * (((moveBullets s.bullets).countP fun b =>
          decide (b ∈ spawnMeteorites env (moveDown s.meteorites))) : ℤ)
        + 50 * (((moveDown (s.loot ++ lootOf env.lootDrop 0
            ((moveBullets s.bullets).reverse.filter fun b =>
              decide (b ∈ spawnMeteorites env (moveDown s.meteorites))))).countP
            fun it => decide (it.y = GAME_HEIGHT - 1 ∧ it.x = s.playerPos)) : ℤ)) ∧
    ((updateSpaceShooter s "" env).loot =
        ((moveDown (s.loot ++ lootOf env.lootDrop 0
            ((moveBullets s.bullets).reverse.filter fun b =>
              decide (b ∈ spawnMeteorites env (moveDown s.meteorites))))).filter
          fun it => !(decide (it.y = GAME_HEIGHT - 1 ∧ it.x = s.playerPos))).filter
          fun it => decide (it.y < GAME_HEIGHT)) ∧
    (∀ q ∈ moveBullets s.bullets,
      q ∈ spawnMeteorites env (moveDown s.meteorites) →
      q ∉ (updateSpaceShooter s "" env).bullets ∧
      q ∉ (updateSpaceShooter s "" env).meteorites) := by
  rw [updateSpaceShooter_eq_fullTick s env h
    (fun hc => by exact absurd hc.1 (by decide))
    (fun hc => by exact absurd hc.1 (by decide))]
  simp only [fullTick]
  rw [if_neg (show ¬("" : String) = " " by decide),
    collide_eq env.lootDrop (moveBullets s.bullets)
      (spawnMeteorites env (moveDown s.meteorites)) s.score hB hM]
  dsimp only
  rw [collectLoot_eq]
  dsimp only
  refine ⟨rfl, rfl, rfl, rfl, ?_⟩
  intro q hqB hqM
  constructor
  · intro hqc
    have := (List.mem_filter.mp hqc).2
    simp only [Bool.not_eq_true', decide_eq_false_iff_not] at this
    exact this hqM
  · intro hqc
    have h1 := (List.mem_filter.mp hqc).1
    have := (List.mem_filter.mp h1).2
    simp only [Bool.not_eq_true', decide_eq_false_iff_not] at this
    exact this hqB

/-- Witness for `c2_collision_amended` on a state whose bullet meets a
meteorite at (4, 5) with the loot oracle firing. -/
theorem c2_collision_amended_witness :
    collisionState.gameOver = false ∧
    (moveBullets collisionState.bullets).Nodup ∧
    (spawnMeteorites lootyEnv (moveDown collisionState.meteorites)).Nodup ∧
    (((updateSpaceShooter collisionState "" lootyEnv).bullets =
        (moveBullets collisionState.bullets).filter fun b =>
          !(decide (b ∈ spawnMeteorites lootyEnv
            (moveDown collisionState.meteorites)))) ∧
     ((updateSpaceShooter collisionState "" lootyEnv).meteorites =
        ((spawnMeteorites lootyEnv (moveDown collisionState.meteorites)).filter
          fun m => !(decide (m ∈ moveBullets collisionState.bullets))).filter
          fun m => decide (m.y < GAME_HEIGHT)) ∧
     ((updateSpaceShooter collisionState "" lootyEnv).score =
        collisionState.score + 10 * (((moveBullets collisionState.bullets).countP
          fun b => decide (b ∈ spawnMeteorites lootyEnv
            (moveDown collisionState.meteorites))) : ℤ)
        + 50 * (((moveDown (collisionState.loot ++ lootOf lootyEnv.lootDrop 0
            ((moveBullets collisionState.bullets).reverse.filter fun b =>
              decide (b ∈ spawnMeteorites lootyEnv
                (moveDown collisionState.meteorites))))).countP
            fun it => decide (it.y = GAME_HEIGHT - 1 ∧
              it.x = collisionState.playerPos)) : ℤ)) ∧
     ((updateSpaceShooter collisionState "" lootyEnv).loot =
        ((moveDown (collisionState.loot ++ lootOf lootyEnv.lootDrop 0
            ((moveBullets collisionState.bullets).reverse.filter fun b =>
              decide (b ∈ spawnMeteorites lootyEnv
                (moveDown collisionState.meteorites))))).filter
          fun it => !(decide (it.y = GAME_HEIGHT - 1 ∧
            it.x = collisionState.playerPos))).filter
          fun it => decide (it.y < GAME_HEIGHT)) ∧
     (∀ q ∈ moveBullets collisionState.bullets,
        q ∈ spawnMeteorites lootyEnv (moveDown collisionState.meteorites) →
        q ∉ (updateSpaceShooter collisionState "" lootyEnv).bullets ∧
        q ∉ (updateSpaceShooter collisionState "" lootyEnv).meteorites)) :=
  ⟨rfl, by decide, by decide,
    c2_collision_amended collisionState lootyEnv rfl (by decide) (by decide)⟩

/-! ## Membership lemmas for the bounds invariant -/

/-- Removing one meteorite yields a sublist of the cells. -/
theorem removeLastAt_subset (p : Pos) (ms ms' : List Pos)
    (h : removeLastAt p ms = some ms') : ∀ q ∈ ms', q ∈ ms := by
  induction ms generalizing ms' with
  | nil => exact absurd h (by simp [removeLastAt])
  | cons m rest ih =>
    rw [removeLastAt] at h
    cases hrm : removeLastAt p rest with
    | some rest' =>
      rw [hrm] at h
      injection h with h'
      intro q hq
      rw [← h'] at hq
      rcases List.mem_cons.mp hq with hqm | hqr
      · exact List.mem_cons.mpr (Or.inl hqm)
      · exact List.mem_cons.mpr (Or.inr (ih rest' hrm q hqr))
    | none =>
      rw [hrm] at h
      by_cases hm : m = p
      · rw [if_pos hm] at h
        injection h with h'
        intro q hq
        rw [← h'] at hq
        exact List.mem_cons.mpr (Or.inr hq)
      · rw [if_neg hm] at h
        exact Option.noConfusion h

/-- Bullets surviving the collision loop come from the input bullets. -/
theorem collideAux_bullets_subset (drop : ℕ → Bool) (bs : List Pos) :
    ∀ (ms : List Pos) (sc : ℤ) (nl : List Pos) (k : ℕ),
    ∀ q ∈ (collideAux drop bs ms sc nl k).bullets, q ∈ bs := by
  induction bs with
  | nil => intro ms sc nl k q hq; exact absurd hq (by simp [collideAux])
  | cons b rest ih =>
    intro ms sc nl k q hq
    cases hrm : removeLastAt b ms with
    | none =>
      rw [collideAux_cons_none drop b rest ms sc nl k
        ((removeLastAt_eq_none_iff b ms).mp hrm)] at hq
      rcases List.mem_cons.mp hq with hqb | hqr
      · exact List.mem_cons.mpr (Or.inl hqb)
      · exact List.mem_cons.mpr (Or.inr (ih ms sc nl k q hqr))
    | some ms' =>
      rw [collideAux_cons_some drop b rest ms ms' sc nl k hrm] at hq
      exact List.mem_cons.mpr (Or.inr (ih ms' (sc + 10) _ (k + 1) q hq))

/-- Meteorites surviving the collision loop come from the input cells. -/
theorem collideAux_meteorites_subset (drop : ℕ → Bool) (bs : List Pos) :
    ∀ (ms : List Pos) (sc : ℤ) (nl : List Pos) (k : ℕ),
    ∀ q ∈ (collideAux drop bs ms sc nl k).meteorites, q ∈ ms := by
  induction bs with
  | nil => intro ms sc nl k q hq; simpa [collideAux] using hq
  | cons b rest ih =>
    intro ms sc nl k q hq
    cases hrm : removeLastAt b ms with
    | none =>
      rw [collideAux_cons_none drop b rest ms sc nl k
        ((removeLastAt_eq_none_iff b ms).mp hrm)] at hq
      exact ih ms sc nl k q hq
    | some ms' =>
      rw [collideAux_cons_some drop b rest ms ms' sc nl k hrm] at hq
      exact removeLastAt_subset b ms ms' hrm q (ih ms' (sc + 10) _ (k + 1) q hq)

/-- Loot pushed by the collision loop sits at an input bullet's cell (or
was already in the accumulator). -/
theorem collideAux_newLoot_subset (drop : ℕ → Bool) (bs : List Pos) :
    ∀ (ms : List Pos) (sc : ℤ) (nl : List Pos) (k : ℕ),
    ∀ q ∈ (collideAux drop bs ms sc nl k).newLoot, q ∈ nl ∨ q ∈ bs := by
  induction bs with
  | nil =>
    intro ms sc nl k q hq
    exact Or.inl (by simpa [collideAux] using hq)
  | cons b rest ih =>
    intro ms sc nl k q hq
    cases hrm : removeLastAt b ms with
    | none =>
      rw [collideAux_cons_none drop b rest ms sc nl k
        ((removeLastAt_eq_none_iff b ms).mp hrm)] at hq
      rcases ih ms sc nl k q hq with h1 | h2
      · exact Or.inl h1
      · exact Or.inr (List.mem_cons.mpr (Or.inr h2))
    | some ms' =>
      rw [collideAux_cons_some drop b rest ms ms' sc nl k hrm] at hq
      rcases ih ms' (sc + 10) _ (k + 1) q hq with h1 | h2
      · by_cases hdk : drop k
        · rw [if_pos hdk] at h1
          rcases List.mem_append.mp h1 with h3 | h4
          · exact Or.inl h3
          · exact Or.inr (List.mem_cons.mpr (Or.inl (List.mem_singleton.mp h4)))
        · rw [if_neg hdk] at h1
          exact Or.inl h1
      · exact Or.inr (List.mem_cons.mpr (Or.inr h2))

/-- A full tick keeps every live entity within the grid, as long as the
player column is itself within the grid. -/
theorem fullTick_preserves_bounds (s : SpaceShooterState) (action : String)
    (env : Env) (hp : 0 ≤ s.playerPos ∧ s.playerPos < GAME_WIDTH)
    (hent : entitiesInBounds s) :
    entitiesInBounds (fullTick s action env) := by
  obtain ⟨hms, hbs, hls⟩ := hent
  have hball : ∀ q ∈ (if action = " "
      then s.bullets ++ [⟨s.playerPos, GAME_HEIGHT - 2⟩] else s.bullets),
      inBounds q := by
    split
    · intro q hq
      rcases List.mem_append.mp hq with h1 | h2
      · exact hbs q h1
      · rw [List.mem_singleton.mp h2]
        exact ⟨hp.1, hp.2, show (0 : ℤ) ≤ GAME_HEIGHT - 2 by rw [GAME_HEIGHT]; omega,
          show (GAME_HEIGHT - 2 : ℤ) < GAME_HEIGHT by rw [GAME_HEIGHT]; omega⟩
    · exact hbs
  have hB : ∀ q ∈ moveBullets (if action = " "
      then s.bullets ++ [⟨s.playerPos, GAME_HEIGHT - 2⟩] else s.bullets),
      inBounds q := by
    intro q hq
    rw [moveBullets] at hq
    obtain ⟨hq1, hq2⟩ := List.mem_filter.mp hq
    obtain ⟨b, hbmem, rfl⟩ := List.mem_map.mp hq1
    obtain ⟨hx1, hx2, hy1, hy2⟩ := hball b hbmem
    have hy : (0 : ℤ) ≤ b.y - 1 := by simpa using hq2
    exact ⟨hx1, hx2, hy,
      show b.y - 1 < GAME_HEIGHT by rw [GAME_HEIGHT] at hy2 ⊢; omega⟩
  have hM : ∀ q ∈ spawnMeteorites env (moveDown s.meteorites),
      0 ≤ q.x ∧ q.x < GAME_WIDTH ∧ 0 ≤ q.y := by
    intro q hq
    rw [spawnMeteorites] at hq
    have hq' : q ∈ moveDown s.meteorites ∨ q = ⟨((env.spawnX : ℕ) : ℤ), 0⟩ := by
      split at hq
      · rcases List.mem_append.mp hq with h1 | h2
        · exact Or.inl h1
        · exact Or.inr (List.mem_singleton.mp h2)
      · exact Or.inl hq
    rcases hq' with h1 | h2
    · obtain ⟨m, hmmem, rfl⟩ := List.mem_map.mp h1
      obtain ⟨hx1, hx2, hy1, _⟩ := hms m hmmem
      exact ⟨hx1, hx2, show (0 : ℤ) ≤ m.y + 1 by omega⟩
    · rw [h2]
      refine ⟨show (0 : ℤ) ≤ ((env.spawnX : ℕ) : ℤ) by positivity,
        show ((env.spawnX : ℕ) : ℤ) < GAME_WIDTH from ?_,
        show (0 : ℤ) ≤ 0 from le_refl 0⟩
      have := env.spawnX.isLt
      rw [GAME_WIDTH]
      exact_mod_cast this
  simp only [fullTick]
  rw [collectLoot_eq]
  refine ⟨?_, ?_, ?_⟩
  · intro q hq
    obtain ⟨hq1, hq2⟩ := List.mem_filter.mp hq
    have hq3 : q ∈ spawnMeteorites env (moveDown s.meteorites) := by
      have := collideAux_meteorites_subset env.lootDrop _ _ _ _ _ q
        (by simpa [collide] using hq1)
      exact this
    obtain ⟨hx1, hx2, hy1⟩ := hM q hq3
    exact ⟨hx1, hx2, hy1, by simpa using hq2⟩
  · intro q hq
    have hq' : q ∈ moveBullets (if action = " "
        then s.bullets ++ [⟨s.playerPos, GAME_HEIGHT - 2⟩] else s.bullets) := by
      have h1 : q ∈ (collideAux env.lootDrop (moveBullets (if action = " "
          then s.bullets ++ [⟨s.playerPos, GAME_HEIGHT - 2⟩] else s.bullets)).reverse
          (spawnMeteorites env (moveDown s.meteorites)) s.score [] 0).bullets.reverse := by
        simpa [collide] using hq
      have h2 := List.mem_reverse.mp h1
      have h3 := collideAux_bullets_subset env.lootDrop _ _ _ _ _ q h2
      exact List.mem_reverse.mp h3
    exact hB q hq'
  · intro q hq
    obtain ⟨hq1, hq2⟩ := List.mem_filter.mp hq
    obtain ⟨hq3, _⟩ := List.mem_filter.mp hq1
    obtain ⟨it, hitmem, rfl⟩ := List.mem_map.mp hq3
    have hit' : inBounds it := by
      rcases List.mem_append.mp hitmem with h1 | h2
      · exact hls it h1
      · have h3 : it ∈ ([] : List Pos) ∨ it ∈ (moveBullets (if action = " "
            then s.bullets ++ [⟨s.playerPos, GAME_HEIGHT - 2⟩]
            else s.bullets)).reverse := by
          have := collideAux_newLoot_subset env.lootDrop _ _ _ _ _ it
            (by simpa [collide] using h2)
          exact this
        rcases h3 with h4 | h5
        · exact absurd h4 (List.not_mem_nil it)
        · exact hB it (List.mem_reverse.mp h5)
    obtain ⟨hx1, hx2, hy1, _⟩ := hit'
    exact ⟨hx1, hx2, show (0 : ℤ) ≤ it.y + 1 by omega, by simpa using hq2⟩

/-! ## Claim C6: the grid-bounds invariant -/

/-- C6 (counterexample): a state whose live entities are all in bounds
(vacuously — there are none) but whose player column is 30 produces, on a
fire tick, a live bullet at column 30, outside `[0, GAME_WIDTH)`; the
claim as stated (which constrains only the entities) is false. -/
theorem c6_bounds_counterexample :
    entitiesInBounds outOfRangeState ∧ outOfRangeState.gameOver = false ∧
    ¬ entitiesInBounds (updateSpaceShooter outOfRangeState " " quietEnv) := by
  decide

/-- C6 (amended): with the player column also within `[0, GAME_WIDTH)`,
a state whose live entities are all within
`[0, GAME_WIDTH) × [0, GAME_HEIGHT)` yields, for every action, a state
whose live entities are again all within bounds (entities leaving the
grid are filtered out in the tick they leave), and the player column
stays within bounds. -/
theorem c6_bounds_amended (s : SpaceShooterState) (action : String) (env : Env)
    (hp : 0 ≤ s.playerPos ∧ s.playerPos < GAME_WIDTH)
    (hent : entitiesInBounds s) :
    entitiesInBounds (updateSpaceShooter s action env) ∧
    0 ≤ (updateSpaceShooter s action env).playerPos ∧
    (updateSpaceShooter s action env).playerPos < GAME_WIDTH := by
  rw [updateSpaceShooter]
  split_ifs with hgo hma hmd
  · exact ⟨hent, hp.1, hp.2⟩
  · obtain ⟨-, hpos⟩ := hma
    exact ⟨hent, by dsimp only; omega, by dsimp only; omega⟩
  · obtain ⟨-, hpos⟩ := hmd
    exact ⟨hent, by dsimp only; omega, by dsimp only; omega⟩
  · refine ⟨fullTick_preserves_bounds s action env hp hent, ?_, ?_⟩
    · rw [fullTick_playerPos]
      exact hp.1
    · rw [fullTick_playerPos]
      exact hp.2

/-- Witness for `c6_bounds_amended` on an in-bounds state firing a
bullet. -/
theorem c6_bounds_amended_witness :
    (0 ≤ boundedState.playerPos ∧ boundedState.playerPos < GAME_WIDTH) ∧
    entitiesInBounds boundedState ∧
    (entitiesInBounds (updateSpaceShooter boundedState " " lootyEnv) ∧
      0 ≤ (updateSpaceShooter boundedState " " lootyEnv).playerPos ∧
      (updateSpaceShooter boundedState " " lootyEnv).playerPos < GAME_WIDTH) :=
  ⟨by decide, by decide,
    c6_bounds_amended boundedState " " lootyEnv (by decide) (by decide)⟩

/-! ## Claim C1: the runner collision rule -/

/-- C1: whenever an obstacle's axis-aligned bounding box overlaps the
player's, a `'low'` obstacle triggers game-over exactly when the player
is not jumping, and a `'high'` obstacle exactly when the player is not
ducking; and the overlap test `checkCollision` holds precisely when the
two (positively sized) rectangles share a common interior point. -/
theorem c1_collision_rule :
    (∀ (player : GameObject) (ob : Obstacle) (isJumping isDucking : Bool),
      checkCollision player ob.toGameObject = true →
        ((ob.type = OType.low →
            obstacleTriggers player ob isJumping isDucking = !isJumping) ∧
         (ob.type = OType.high →
            obstacleTriggers player ob isJumping isDucking = !isDucking))) ∧
    (∀ r1 r2 : GameObject, 0 < r1.width → 0 < r1.height → 0 < r2.width →
      0 < r2.height →
      (checkCollision r1 r2 = true ↔
        ∃ px py : ℚ,
          (r1.x < px ∧ px < r1.x + r1.width ∧ r1.y < py ∧ py < r1.y + r1.height) ∧
          (r2.x < px ∧ px < r2.x + r2.width ∧ r2.y < py ∧
            py < r2.y + r2.height))) := by
  constructor
  · intro player ob j d hov
    constructor
    · intro hty
      simp [obstacleTriggers, hty, hov]
    · intro hty
      simp [obstacleTriggers, hty, hov]
  · intro r1 r2 hw1 hh1 hw2 hh2
    constructor
    · intro hcol
      rw [checkCollision] at hcol
      simp only [Bool.and_eq_true, decide_eq_true_eq] at hcol
      obtain ⟨⟨⟨h1, h2⟩, h3⟩, h4⟩ := hcol
      have hx : max r1.x r2.x < min (r1.x + r1.width) (r2.x + r2.width) :=
        max_lt (lt_min (by linarith) (by linarith))
          (lt_min (by linarith) (by linarith))
      have hy : max r1.y r2.y < min (r1.y + r1.height) (r2.y + r2.height) :=
        max_lt (lt_min (by linarith) (by linarith))
          (lt_min (by linarith) (by linarith))
      set px := (max r1.x r2.x + min (r1.x + r1.width) (r2.x + r2.width)) / 2
        with hpx
      set py := (max r1.y r2.y + min (r1.y + r1.height) (r2.y + r2.height)) / 2
        with hpy
      have hx1 : max r1.x r2.x < px := by rw [hpx]; linarith
      have hx2 : px < min (r1.x + r1.width) (r2.x + r2.width) := by
        rw [hpx]; linarith
      have hy1 : max r1.y r2.y < py := by rw [hpy]; linarith
      have hy2 : py < min (r1.y + r1.height) (r2.y + r2.height) := by
        rw [hpy]; linarith
      refine ⟨px, py, ⟨?_, ?_, ?_, ?_⟩, ⟨?_, ?_, ?_, ?_⟩⟩
      · exact lt_of_le_of_lt (le_max_left _ _) hx1
      · exact lt_of_lt_of_le hx2 (min_le_left _ _)
      · exact lt_of_le_of_lt (le_max_left _ _) hy1
      · exact lt_of_lt_of_le hy2 (min_le_left _ _)
      · exact lt_of_le_of_lt (le_max_right _ _) hx1
      · exact lt_of_lt_of_le hx2 (min_le_right _ _)
      · exact lt_of_le_of_lt (le_max_right _ _) hy1
      · exact lt_of_lt_of_le hy2 (min_le_right _ _)
    · rintro ⟨px, py, ⟨ha1, ha2, ha3, ha4⟩, hb1, hb2, hb3, hb4⟩
      rw [checkCollision]
      simp only [Bool.and_eq_true, decide_eq_true_eq]
      exact ⟨⟨⟨by linarith, by linarith⟩, by linarith⟩, by linarith⟩

/-- Witness for `c1_collision_rule` on the ducking player overlapping a
low obstacle. -/
theorem c1_collision_rule_witness :
    checkCollision duckPlayer lowObsDemo.toGameObject = true ∧
    ((lowObsDemo.type = OType.low →
        obstacleTriggers duckPlayer lowObsDemo false true = !false) ∧
     (lowObsDemo.type = OType.high →
        obstacleTriggers duckPlayer lowObsDemo false true = !true)) ∧
    ((0 : ℚ) < duckPlayer.width ∧ (0 : ℚ) < duckPlayer.height ∧
      (0 : ℚ) < lowObsDemo.toGameObject.width ∧
      (0 : ℚ) < lowObsDemo.toGameObject.height) ∧
    (checkCollision duckPlayer lowObsDemo.toGameObject = true ↔
      ∃ px py : ℚ,
        (duckPlayer.x < px ∧ px < duckPlayer.x + duckPlayer.width ∧
          duckPlayer.y < py ∧ py < duckPlayer.y + duckPlayer.height) ∧
        (lowObsDemo.toGameObject.x < px ∧
          px < lowObsDemo.toGameObject.x + lowObsDemo.toGameObject.width ∧
          lowObsDemo.toGameObject.y < py ∧
          py < lowObsDemo.toGameObject.y + lowObsDemo.toGameObject.height)) := by
  have hcol : checkCollision duckPlayer lowObsDemo.toGameObject = true := by
    with_unfolding_all decide
  refine ⟨hcol, c1_collision_rule.1 duckPlayer lowObsDemo false true hcol,
    ⟨?_, ?_, ?_, ?_⟩,
    c1_collision_rule.2 duckPlayer lowObsDemo.toGameObject ?_ ?_ ?_ ?_⟩ <;>
    with_unfolding_all decide

end Yakou8
